import Mathlib

/-!
Verification of the candidate acquisition-and-ranking pipeline
(`agents/repo_scout.py`) and the template cache (`core/template_manager.py`).

The embedding is shallow: pure Python logic becomes Lean functions; every
external interaction (HTTP search, the reasoning-service call, git
subprocess invocations, the local file system) is made an explicit input,
an oracle value describing the outcome of that interaction, so that each
code path of the Python source corresponds to a constructor case here.
-/

/-- `RepoCandidate` (pydantic model in `repo_scout.py`): one discovered
repository. `match_score` and `analysis_reason` are the fields mutated by
the pipeline stages. -/
structure RepoCandidate where
  name : String
  url : String
  description : String
  stars : Nat := 0
  match_score : Int := 0
  analysis_reason : String := ""
deriving DecidableEq

/-- Whether the first character list starts the second one. -/
def leadsWith : List Char → List Char → Bool
  | [], _ => true
  | _ :: _, [] => false
  | a :: as, b :: bs => a == b && leadsWith as bs

/-- Whether the first character list occurs contiguously in the second. -/
def occursIn (sub : List Char) : List Char → Bool
  | [] => sub.isEmpty
  | c :: rest => leadsWith sub (c :: rest) || occursIn sub rest

/-- Python `sub in s` substring membership test. -/
def containsSub (s sub : String) : Bool :=
  occursIn sub.toList s.toList

/-- Python `s.lower()`, written over the character list so that it
evaluates by reduction. -/
def pyLower (s : String) : String :=
  String.mk (s.toList.map Char.toLower)

/-- Rules 1 and 2 of `_analyze_match` (lines 229-247): baseline 50 and
"Basic match.", the jeecg affinity rule, the stripe rule whose sdk branch
overrides the score outright. -/
def heuristicBase (c : RepoCandidate) (req : String) : Int × String :=
  let score : Int := 50
  let reason : String := "Basic match."
  let req_lower := pyLower req
  let name_lower := pyLower c.name
  let desc_lower := pyLower c.description
  let (score, reason) :=
    if containsSub req_lower "jeecg" && containsSub name_lower "jeecg" then
      (score + 30, "High affinity: Jeecg module pattern detected.")
    else (score, reason)
  if containsSub req_lower "stripe" && containsSub name_lower "stripe" then
    if containsSub desc_lower "sdk" then
      ((40 : Int), "Low affinity: SDK library (requires wrapping).")
    else (score + 40, "Good match: Payment implementation found.")
  else (score, reason)

/-- Condition of the standalone-system penalty rule (line 249):
the description contains "system" but not "module". -/
def penaltyApplies (c : RepoCandidate) : Bool :=
  containsSub (pyLower c.description) "system" &&
    !containsSub (pyLower c.description) "module"

/-- The heuristic stage of `_analyze_match` (lines 229-251): the two
keyword rules followed by the standalone-system penalty. -/
def heuristicScore (c : RepoCandidate) (req : String) : Int × String :=
  let base := heuristicBase c req
  if penaltyApplies c then
    (base.1 - 10, base.2 ++ " Warning: Standalone system, migration might be complex.")
  else base

/-- The heuristic stage re-expressed in an exception monad mirroring Python
exception semantics: every operation used by lines 229-251 (string
lowercasing, substring tests, integer arithmetic, concatenation) is total,
so the computation always ends in `Except.ok`. -/
def heuristicScoreE (c : RepoCandidate) (req : String) : Except String (Int × String) := do
  let score : Int := 50
  let reason : String := "Basic match."
  let req_lower := pyLower req
  let name_lower := pyLower c.name
  let desc_lower := pyLower c.description
  let (score, reason) :=
    if containsSub req_lower "jeecg" && containsSub name_lower "jeecg" then
      (score + 30, "High affinity: Jeecg module pattern detected.")
    else (score, reason)
  let (score, reason) :=
    if containsSub req_lower "stripe" && containsSub name_lower "stripe" then
      if containsSub desc_lower "sdk" then
        ((40 : Int), "Low affinity: SDK library (requires wrapping).")
      else (score + 40, "Good match: Payment implementation found.")
    else (score, reason)
  let (score, reason) :=
    if containsSub desc_lower "system" && !containsSub desc_lower "module" then
      (score - 10, reason ++ " Warning: Standalone system, migration might be complex.")
    else (score, reason)
  return (score, reason)

/-- `target_files` of `fetch_analysis_files` (template_manager.py line 89). -/
def target_files : List String :=
  ["pom.xml", "package.json", "build.gradle", "README.md"]

/-- Python dict lookup `files[k]` / `k in files` over an association list. -/
def lookupFile (files : List (String × String)) (k : String) : Option String :=
  (files.find? (fun p => p.1 == k)).map (fun p => p.2)

/-- `fetch_analysis_files` (template_manager.py lines 80-129), with the git
transfer made explicit: `none` is any failure inside the try block (a
`TemplateError` from a git command or an unexpected exception), in which
case the function catches and returns the empty dict; `some tree` is the
materialized sparse working tree, from which each allow-listed file that
exists is read (absent files are omitted). -/
def fetch_analysis_files (gitResult : Option (List (String × String))) :
    List (String × String) :=
  match gitResult with
  | none => []
  | some tree =>
      target_files.filterMap (fun tf => (lookupFile tree tf).map (fun content => (tf, content)))

/-- Outcome of the deep-read call inside `_analyze_match`: either the
fetch raises (any exception, caught at line 279) or it returns the files
dict produced by `fetch_analysis_files`. -/
inductive DeepFetch where
  | raises
  | files (fs : List (String × String))
deriving DecidableEq

/-- The insight-folding body of the deep read (lines 262-277): Maven /
Jeecg-Native / MyBatis+ / Node tags, the jeecg-boot-starter score bonus,
and the single trailing parenthesized summary. -/
def deepInsights (score : Int) (reason : String) (files : List (String × String)) :
    Int × String :=
  let (score, reason, insights) :=
    match lookupFile files "pom.xml" with
    | some pom =>
        let insights := ["Maven"]
        let (score, reason, insights) :=
          if containsSub pom "jeecg-boot-starter" then
            (score + 20, reason ++ " [Confirmed: Native Jeecg Dependency]",
              insights ++ ["Jeecg-Native"])
          else (score, reason, insights)
        if containsSub pom "mybatis-plus" then (score, reason, insights ++ ["MyBatis+"])
        else (score, reason, insights)
    | none => (score, reason, ([] : List String))
  let insights :=
    match lookupFile files "package.json" with
    | some _ => insights ++ ["Node"]
    | none => insights
  if insights.isEmpty then (score, reason)
  else (score, reason ++ " (Deep Analysis: " ++ String.intercalate ", " insights ++ ")")

/-- `_analyze_match` (repo_scout.py lines 225-282): the heuristic stage,
then — only when the heuristic score reaches the threshold 60 — the
deep read, whose failure is caught and ignored. -/
def analyze_match (c : RepoCandidate) (req : String) (fetch : DeepFetch) : Int × String :=
  let base := heuristicScore c req
  if base.1 ≥ 60 then
    match fetch with
    | .raises => base
    | .files fs => deepInsights base.1 base.2 fs
  else base

/-- The structured-data layer of the reasoning-service response: either
parsing raised (`KeyError` / `JSONDecodeError` / `IndexError`, caught at
line 153) or it produced a decision object whose `selected_index` and
`reasoning` fields may each be absent. -/
inductive AIParse where
  | parseFail
  | decision (selected_index : Option Int) (reasoning : Option String)
deriving DecidableEq

/-- Outcome of the reasoning-service HTTP call: either the request raised
(caught at line 158) or it returned a status code with a parsed body. -/
inductive AIOutcome where
  | exn
  | status (code : Nat) (parse : AIParse)
deriving DecidableEq

/-- Mutation applied to the selected candidate (lines 144-145): fixed +10
score bonus, and the rationale prefixed with the bracketed tag holding the
reasoning text of the service. -/
def bumpSelected (c : RepoCandidate) (aiReason : String) : RepoCandidate :=
  { c with
      match_score := c.match_score + 10,
      analysis_reason := "[AI SELECTED: " ++ aiReason ++ "] " ++ c.analysis_reason }

/-- `_evaluate_candidates_with_ai` (repo_scout.py lines 69-161).
`apiKey` models `os.getenv` of the credential (`none` means absent, the
function returns its input immediately); `outcome` models the HTTP call and
the parse of the body. On a parsed decision with an in-range index the
selected candidate is bumped, popped and re-inserted at the front; on every
other path the input list is returned unchanged. -/
def evaluate_candidates_with_ai (apiKey : Option String) (outcome : AIOutcome)
    (candidates : List RepoCandidate) : List RepoCandidate :=
  match apiKey with
  | none => candidates
  | some _ =>
    match outcome with
    | .exn => candidates
    | .status code parse =>
      if code = 200 then
        match parse with
        | .parseFail => candidates
        | .decision idxOpt reasoningOpt =>
          match idxOpt with
          | none => candidates
          | some idx =>
            if h : 0 ≤ idx ∧ idx.toNat < candidates.length then
              bumpSelected (candidates.get ⟨idx.toNat, h.2⟩)
                  (reasoningOpt.getD "No reason provided.")
                :: candidates.eraseIdx idx.toNat
            else candidates
      else candidates

/-- One raw item of the search-index response (`items` array): each field
may be absent (or JSON null, which `item.get` also turns into `None`). -/
structure SearchItem where
  name : Option String
  clone_url : Option String
  description : Option String
  stargazers_count : Option Nat
deriving DecidableEq

/-- The per-item constructor call `RepoCandidate(...)` (lines 187-192):
a missing name or clone address fails pydantic validation (the whole
search then raises and is caught, yielding no candidates); a missing or
empty description gets the sentinel via Python `or`; missing stars
default to 0. -/
def itemToCandidate (it : SearchItem) : Option RepoCandidate :=
  match it.name, it.clone_url with
  | some n, some u =>
      some { name := n, url := u,
             description :=
               match it.description with
               | some d => if d.isEmpty then "No description provided" else d
               | none => "No description provided",
             stars := it.stargazers_count.getD 0 }
  | _, _ => none

/-- Outcome of the search-index HTTP call of `_search_github_real`. -/
inductive SearchOutcome where
  | exn
  | status (code : Nat) (items : List SearchItem)
deriving DecidableEq

/-- `_search_github_real` (repo_scout.py lines 163-197): empty list on a
transport exception, on a non-200 status, or on a validation error while
mapping items; otherwise the mapped candidates. -/
def search_github_real (outcome : SearchOutcome) : List RepoCandidate :=
  match outcome with
  | .exn => []
  | .status code items =>
    if code = 200 then
      match items.mapM itemToCandidate with
      | some cs => cs
      | none => []
    else []

/-- `_mock_search_github` (repo_scout.py lines 199-223): the fixed
built-in fallback set. -/
def mock_search_github (_query : String) : List RepoCandidate :=
  [ { name := "jeecg-boot-module-demo",
      url := "https://github.com/jeecgboot/jeecg-boot.git",
      description := "Official JeecgBoot demo module. Contains standard CRUD patterns.",
      stars := 3500 },
    { name := "jeepay-payment-system",
      url := "https://github.com/jeequan/jeepay.git",
      description := "Open source payment system. High complexity, standalone app.",
      stars := 1200 },
    { name := "stripe-java-sdk",
      url := "https://github.com/stripe/stripe-java.git",
      description := "Official Stripe SDK. Low level library, not a module.",
      stars := 5000 } ]

/-- The discovery phase of `search_and_analyze` (repo_scout.py lines
34-39): the real search, replaced wholesale by the mock set when it
produced nothing. -/
def discoverCandidates (outcome : SearchOutcome) (query : String) : List RepoCandidate :=
  let cands := search_github_real outcome
  if cands.isEmpty then mock_search_github query else cands

/-- A single-quote character, used to reproduce the exact Python error
message strings. -/
def quoteMark : String := String.singleton (Char.ofNat 39)

/-- `TemplateRegistryEntry` as read from the registry document
(template_manager.py): the dict fields accessed by `get_template_path`,
`_fetch_git_repo` and `_update_git_repo`. `type_` is `meta.get("type")`
(absent becomes `none`). -/
structure TemplateMeta where
  type_ : Option String
  repository : String
  branch : Option String
  sub_path : Option String
deriving DecidableEq

/-- Rendering of `meta.get("type")` inside the unsupported-type error
message (Python prints `None` for an absent key). -/
def typeStr : Option String → String
  | some s => s
  | none => "None"

/-- The git subprocess invocations `get_template_path` can perform, in
order of execution, used to trace which commands a resolve runs. -/
inductive GitOp where
  | init
  | remoteAdd
  | sparseConfig
  | pull
  | fetch
  | reset
deriving DecidableEq

/-- Oracle for the external world of one resolve call: whether the cache
directory for the key exists at entry, which git commands would succeed,
and whether the configured sub-path exists inside the working copy. -/
structure GitFS where
  cacheExists : Bool
  initOk : Bool
  remoteOk : Bool
  sparseOk : Bool
  pullOk : Bool
  fetchOk : Bool
  resetOk : Bool
  subPathOk : Bool
deriving DecidableEq

/-- Python truthiness of `meta.get("sub_path")` (line 160): present and
non-empty. -/
def hasSubPath (meta : TemplateMeta) : Bool :=
  match meta.sub_path with
  | some sp => !sp.isEmpty
  | none => false

/-- `_fetch_git_repo` (template_manager.py lines 146-174). Returns the
result, the git commands attempted in order, and whether the target
directory still exists afterwards. The directory is created first
(line 153); only a failure of the final pull is wrapped in the
try/except that removes the directory (lines 167-174) — a failure of
init, remote add or the sparse-checkout config raises with the directory
left in place. -/
def fetch_git_repo (meta : TemplateMeta) (fs : GitFS) :
    Except String Unit × List GitOp × Bool :=
  if !fs.initOk then
    (Except.error "Git command failed: init", [GitOp.init], true)
  else if !fs.remoteOk then
    (Except.error "Git command failed: remote add origin",
      [GitOp.init, GitOp.remoteAdd], true)
  else if hasSubPath meta && !fs.sparseOk then
    (Except.error "Git command failed: config core.sparseCheckout true",
      [GitOp.init, GitOp.remoteAdd, GitOp.sparseConfig], true)
  else
    let pre :=
      if hasSubPath meta then [GitOp.init, GitOp.remoteAdd, GitOp.sparseConfig]
      else [GitOp.init, GitOp.remoteAdd]
    if !fs.pullOk then
      (Except.error "Git command failed: pull", pre ++ [GitOp.pull], false)
    else (Except.ok (), pre ++ [GitOp.pull], true)

/-- `_update_git_repo` (template_manager.py lines 176-180): shallow fetch
of the tracked branch, then hard reset to its remote tip. Returns the
result and the commands attempted in order. -/
def update_git_repo (fs : GitFS) : Except String Unit × List GitOp :=
  if !fs.fetchOk then (Except.error "Git command failed: fetch", [GitOp.fetch])
  else if !fs.resetOk then
    (Except.error "Git command failed: reset", [GitOp.fetch, GitOp.reset])
  else (Except.ok (), [GitOp.fetch, GitOp.reset])

/-- Lookup in the registry mapping built by `_load_registry`. -/
def lookupRegistry (reg : List (String × TemplateMeta)) (k : String) :
    Option TemplateMeta :=
  ((reg.find? (fun p => p.1 == k)).map (fun p => p.2))

/-- The fetch-or-update step of `get_template_path` (lines 59-68): cache
hit without refresh runs nothing; cache hit with `force_update` runs the
update; a missing working copy runs the fresh fetch. -/
def resolveStep (meta : TemplateMeta) (force : Bool) (fs : GitFS) :
    Except String Unit × List GitOp :=
  if fs.cacheExists then
    if force then update_git_repo fs else (Except.ok (), [])
  else ((fetch_git_repo meta fs).1, (fetch_git_repo meta fs).2.1)

/-- `get_template_path` (template_manager.py lines 45-78): registry
lookup, template-type check, fetch or update, then sub-path resolution.
Returns the resolved path or the error message, paired with the git
commands attempted. -/
def get_template_path (reg : List (String × TemplateMeta)) (cacheBase : String)
    (key : String) (force : Bool) (fs : GitFS) :
    Except String String × List GitOp :=
  match lookupRegistry reg key with
  | none =>
      (Except.error ("Template " ++ quoteMark ++ key ++ quoteMark ++ " not defined in registry."), [])
  | some meta =>
    if meta.type_ ≠ some "git" then
      (Except.error ("Unsupported template type: " ++ typeStr meta.type_), [])
    else
      let cachePath := cacheBase ++ "/" ++ key
      let step := resolveStep meta force fs
      match step.1 with
      | Except.error e => (Except.error e, step.2)
      | Except.ok _ =>
        match meta.sub_path with
        | some sp =>
          if sp.isEmpty then (Except.ok cachePath, step.2)
          else if fs.subPathOk then (Except.ok (cachePath ++ "/" ++ sp), step.2)
          else
            (Except.error
              ("Sub-path " ++ quoteMark ++ sp ++ quoteMark ++ " not found in repo for " ++ key),
              step.2)
        | none => (Except.ok cachePath, step.2)

/-! ## Concrete fixtures used by the claims and their witnesses -/

/-- Fixture: the top-ranked candidate of the adjudication scenario. -/
def candA : RepoCandidate :=
  { name := "alpha-module", url := "https://github.com/x/alpha.git",
    description := "alpha", stars := 30, match_score := 80,
    analysis_reason := "strong heuristic match" }

/-- Fixture: the middle candidate of the adjudication scenario. -/
def candB : RepoCandidate :=
  { name := "beta-module", url := "https://github.com/x/beta.git",
    description := "beta", stars := 20, match_score := 60,
    analysis_reason := "medium heuristic match" }

/-- Fixture: the last-ranked candidate of the adjudication scenario. -/
def candC : RepoCandidate :=
  { name := "gamma-module", url := "https://github.com/x/gamma.git",
    description := "gamma", stars := 10, match_score := 40,
    analysis_reason := "weak heuristic match" }

/-! ## Helper lemmas -/

/-- Selecting an element and consing it onto the list with that index
erased is a permutation of the list. -/
theorem get_cons_eraseIdx_perm {α : Type} :
    ∀ (l : List α) (i : Nat) (h : i < l.length),
      List.Perm (l.get ⟨i, h⟩ :: l.eraseIdx i) l := by
  intro l
  induction l with
  | nil => intro i h; exact absurd h (Nat.not_lt_zero i)
  | cons a t ih =>
    intro i h
    cases i with
    | zero => simp [List.eraseIdx]
    | succ j =>
      have hj : j < t.length := Nat.lt_of_succ_lt_succ h
      have step : List.Perm (t.get ⟨j, hj⟩ :: a :: t.eraseIdx j)
          (a :: (t.get ⟨j, hj⟩ :: t.eraseIdx j)) := List.Perm.swap a (t.get ⟨j, hj⟩) _
      exact List.Perm.trans step (List.Perm.cons a (ih j hj))

/-- Case analysis of `_evaluate_candidates_with_ai`: every path either
returns the input unchanged or promotes one bumped element to the front
with its original position erased. -/
theorem ai_eval_shape (k : Option String) (o : AIOutcome) (cands : List RepoCandidate) :
    evaluate_candidates_with_ai k o cands = cands ∨
      ∃ (i : Fin cands.length) (r : String),
        evaluate_candidates_with_ai k o cands =
          bumpSelected (cands.get i) r :: cands.eraseIdx i.val := by
  cases k with
  | none => exact Or.inl rfl
  | some v =>
    cases o with
    | exn => exact Or.inl rfl
    | status code p =>
      by_cases hc : code = 200
      · subst hc
        cases p with
        | parseFail => exact Or.inl rfl
        | decision idxOpt reasoningOpt =>
          cases idxOpt with
          | none => exact Or.inl rfl
          | some idx =>
            by_cases h : 0 ≤ idx ∧ idx.toNat < cands.length
            · refine Or.inr ⟨⟨idx.toNat, h.2⟩, reasoningOpt.getD "No reason provided.", ?_⟩
              simp only [evaluate_candidates_with_ai, if_true]
              rw [dif_pos h]
            · refine Or.inl ?_
              simp only [evaluate_candidates_with_ai, if_true]
              rw [dif_neg h]
      · simp only [evaluate_candidates_with_ai]
        rw [if_neg hc]
        exact Or.inl rfl

/-! ## Claim theorems -/

/-- C1: given the descending-ranked input `[A(80), B(60), C(40)]` and a
reasoning-service response selecting index 2 with reasoning text, the
adjudicator returns `[C, A, B]`: the score of `C` becomes 40+10=50, its
rationale gets the bracketed selection tag plus the reasoning text
prefixed to the old rationale, and the relative order of `A` and `B` is
preserved. -/
theorem adjudication_promotes_selected_stably :
    evaluate_candidates_with_ai (some "test-key")
        (AIOutcome.status 200 (AIParse.decision (some 2) (some "gamma fits the requirement")))
        [candA, candB, candC] =
      [{ candC with
           match_score := 50,
           analysis_reason := "[AI SELECTED: gamma fits the requirement] weak heuristic match" },
        candA, candB] := by
  decide

/-- C2: the adjudication step leaves the candidate list unchanged when the
input list is empty, when the credential is absent, when the service
returns a non-200 status, when the parsed decision has no
`selected_index`, and when the index is out of range for the list. -/
theorem adjudication_noop_conditions :
    (∀ k o, evaluate_candidates_with_ai k o [] = []) ∧
    (∀ o cands, evaluate_candidates_with_ai none o cands = cands) ∧
    (∀ k code p cands, code ≠ 200 →
      evaluate_candidates_with_ai k (AIOutcome.status code p) cands = cands) ∧
    (∀ k r cands,
      evaluate_candidates_with_ai k (AIOutcome.status 200 (AIParse.decision none r)) cands
        = cands) ∧
    (∀ k r cands idx, (idx < 0 ∨ (cands.length : Int) ≤ idx) →
      evaluate_candidates_with_ai k (AIOutcome.status 200 (AIParse.decision (some idx) r)) cands
        = cands) := by
  refine ⟨?_, ?_, ?_, ?_, ?_⟩
  · intro k o
    rcases ai_eval_shape k o [] with heq | ⟨i, _, _⟩
    · exact heq
    · exact absurd i.isLt (by simp)
  · intro o cands
    rfl
  · intro k code p cands hcode
    cases k with
    | none => rfl
    | some v =>
      simp only [evaluate_candidates_with_ai]
      rw [if_neg hcode]
  · intro k r cands
    cases k with
    | none => rfl
    | some v => rfl
  · intro k r cands idx hrange
    cases k with
    | none => rfl
    | some v =>
      have hneg : ¬(0 ≤ idx ∧ idx.toNat < cands.length) := by omega
      simp only [evaluate_candidates_with_ai, if_true]
      rw [dif_neg hneg]

/-- C2 witness: the non-200 and the out-of-range conditions instantiated
on the concrete three-element list. -/
theorem adjudication_noop_conditions_witness :
    evaluate_candidates_with_ai (some "test-key") (AIOutcome.status 500 AIParse.parseFail)
        [candA, candB, candC] = [candA, candB, candC] ∧
    evaluate_candidates_with_ai (some "test-key")
        (AIOutcome.status 200 (AIParse.decision (some 5) (some "r")))
        [candA, candB, candC] = [candA, candB, candC] :=
  ⟨adjudication_noop_conditions.2.2.1 (some "test-key") 500 AIParse.parseFail
      [candA, candB, candC] (by decide),
    adjudication_noop_conditions.2.2.2.2 (some "test-key") (some "r")
      [candA, candB, candC] 5 (Or.inr (by decide))⟩

/-- Projection onto the fields of a candidate that no pipeline stage
mutates: its identity for the purpose of C10. -/
def candIdent (c : RepoCandidate) : String × String × String × Nat :=
  (c.name, c.url, c.description, c.stars)

/-- C10: on every path, success or failure, the adjudication step returns
a list of the same length whose candidates are a permutation of the input
(identities untouched), and it is either exactly the input or the input
with one selected candidate bumped and moved to the front (so nothing is
added, dropped or duplicated, and at most one candidate is mutated). -/
theorem adjudication_preserves_candidate_set (k : Option String) (o : AIOutcome)
    (cands : List RepoCandidate) :
    (evaluate_candidates_with_ai k o cands).length = cands.length ∧
    List.Perm ((evaluate_candidates_with_ai k o cands).map candIdent)
      (cands.map candIdent) ∧
    (evaluate_candidates_with_ai k o cands = cands ∨
      ∃ (i : Fin cands.length) (r : String),
        evaluate_candidates_with_ai k o cands =
          bumpSelected (cands.get i) r :: cands.eraseIdx i.val) := by
  rcases ai_eval_shape k o cands with heq | ⟨i, r, heq⟩
  · rw [heq]
    exact ⟨rfl, List.Perm.refl _, Or.inl rfl⟩
  · have hperm : List.Perm (cands.get i :: cands.eraseIdx i.val) cands :=
      get_cons_eraseIdx_perm cands i.val i.isLt
    have hmap : List.Perm
        ((bumpSelected (cands.get i) r :: cands.eraseIdx i.val).map candIdent)
        (cands.map candIdent) := by
      have h2 := hperm.map candIdent
      have h3 : (bumpSelected (cands.get i) r :: cands.eraseIdx i.val).map candIdent
          = (cands.get i :: cands.eraseIdx i.val).map candIdent := rfl
      rw [h3]
      exact h2
    refine ⟨?_, ?_, Or.inr ⟨i, r, heq⟩⟩
    · rw [heq]
      have := hmap.length_eq
      simpa using this
    · rw [heq]
      exact hmap

/-- Fixture: a well-formed raw search item. -/
def itemDemo : SearchItem :=
  { name := some "payment-module", clone_url := some "https://github.com/x/pay.git",
    description := some "a payment module", stargazers_count := some 7 }

/-- C3: for every requirement, a transport failure, a non-200 status code
or an empty `items` array makes discovery return exactly the fixed
built-in fallback set; and on every outcome the result is either entirely
the real search result or entirely the fallback set, never a mixture. -/
theorem discovery_fallback_deterministic :
    (∀ q, discoverCandidates SearchOutcome.exn q = mock_search_github q) ∧
    (∀ q code items, code ≠ 200 →
      discoverCandidates (SearchOutcome.status code items) q = mock_search_github q) ∧
    (∀ q code, discoverCandidates (SearchOutcome.status code []) q = mock_search_github q) ∧
    (∀ o q, discoverCandidates o q = search_github_real o ∨
      discoverCandidates o q = mock_search_github q) := by
  refine ⟨?_, ?_, ?_, ?_⟩
  · intro q
    rfl
  · intro q code items hcode
    simp only [discoverCandidates, search_github_real]
    rw [if_neg hcode]
    rfl
  · intro q code
    by_cases hc : code = 200
    · subst hc
      rfl
    · simp only [discoverCandidates, search_github_real]
      rw [if_neg hc]
      rfl
  · intro o q
    by_cases he : (search_github_real o).isEmpty
    · refine Or.inr ?_
      simp only [discoverCandidates]
      rw [if_pos he]
    · refine Or.inl ?_
      simp only [discoverCandidates]
      rw [if_neg he]

/-- C3 witness: a 403 status with a non-empty `items` array still falls
back to the mock set in full. -/
theorem discovery_fallback_deterministic_witness :
    discoverCandidates (SearchOutcome.status 403 [itemDemo]) "jeecg module for demo" =
      mock_search_github "jeecg module for demo" :=
  discovery_fallback_deterministic.2.1 "jeecg module for demo" 403 [itemDemo] (by decide)

/-- C7: whenever the lowercased description contains the
application-signaling keyword ("system" in the code) and not the
"module" keyword, the heuristic scorer subtracts the fixed penalty 10
from the score produced by the preceding rules and appends the cautionary
warning to the rationale instead of replacing it. -/
theorem standalone_system_penalty (c : RepoCandidate) (req : String) :
    containsSub (pyLower c.description) "system" = true →
    containsSub (pyLower c.description) "module" = false →
    heuristicScore c req =
      ((heuristicBase c req).1 - 10,
        (heuristicBase c req).2 ++ " Warning: Standalone system, migration might be complex.") := by
  intro h1 h2
  have hp : penaltyApplies c = true := by
    rw [penaltyApplies, h1, h2]
    rfl
  simp only [heuristicScore, hp, if_true]

/-- C7 witness: a candidate whose description mentions a system but not a
module loses 10 points and keeps the baseline rationale with the warning
appended. -/
theorem standalone_system_penalty_witness :
    heuristicScore
        { name := "jeepay-payment-system", url := "https://github.com/jeequan/jeepay.git",
          description := "Open source payment system. High complexity, standalone app.",
          stars := 1200, match_score := 0, analysis_reason := "" } "payment" =
      ((heuristicBase
          { name := "jeepay-payment-system", url := "https://github.com/jeequan/jeepay.git",
            description := "Open source payment system. High complexity, standalone app.",
            stars := 1200, match_score := 0, analysis_reason := "" } "payment").1 - 10,
        (heuristicBase
          { name := "jeepay-payment-system", url := "https://github.com/jeequan/jeepay.git",
            description := "Open source payment system. High complexity, standalone app.",
            stars := 1200, match_score := 0, analysis_reason := "" } "payment").2 ++
          " Warning: Standalone system, migration might be complex.") :=
  standalone_system_penalty _ "payment" (by decide) (by decide)

/-- C8: the heuristic scoring stage is total and deterministic: its
exception-monadic embedding ends in `Except.ok` of the pure result on
every input (no input raises), and equal inputs give equal
(score, rationale) results. -/
theorem heuristic_scorer_pure_total :
    (∀ c req, heuristicScoreE c req = Except.ok (heuristicScore c req)) ∧
    (∀ c c' req req', c = c' → req = req' →
      heuristicScore c req = heuristicScore c' req') := by
  constructor
  · intro c req
    unfold heuristicScoreE heuristicScore heuristicBase penaltyApplies
    cases h1 : containsSub (pyLower req) "jeecg" && containsSub (pyLower c.name) "jeecg" <;>
      cases h2 : containsSub (pyLower req) "stripe" && containsSub (pyLower c.name) "stripe" <;>
      cases h3 : containsSub (pyLower c.description) "sdk" <;>
      cases h4 : containsSub (pyLower c.description) "system" &&
        !containsSub (pyLower c.description) "module" <;>
      simp [h1, h2, h3, h4] <;> rfl
  · intro c c' req req' hc hr
    rw [hc, hr]

/-- C8 witness: totality and determinism instantiated on the jeecg mock
candidate and a concrete requirement. -/
theorem heuristic_scorer_pure_total_witness :
    heuristicScoreE candC "jeecg module" = Except.ok (heuristicScore candC "jeecg module") ∧
    heuristicScore candC "jeecg module" = heuristicScore candC "jeecg module" :=
  ⟨heuristic_scorer_pure_total.1 candC "jeecg module",
    heuristic_scorer_pure_total.2 candC candC "jeecg module" "jeecg module" rfl rfl⟩

/-- C9: the ad-hoc file fetch returns the empty mapping on any failure
of the underlying git transfer instead of raising; and deep inspection is
a no-op on the pre-inspection score and rationale both when the fetch
raises (the exception is caught) and when the fetched file set carries no
signal (neither pom.xml nor package.json present). -/
theorem deep_inspection_never_raises :
    (fetch_analysis_files none = []) ∧
    (∀ c req, analyze_match c req DeepFetch.raises = heuristicScore c req) ∧
    (∀ c req files, lookupFile files "pom.xml" = none →
      lookupFile files "package.json" = none →
      analyze_match c req (DeepFetch.files files) = heuristicScore c req) := by
  refine ⟨rfl, ?_, ?_⟩
  · intro c req
    unfold analyze_match
    by_cases h : (heuristicScore c req).1 ≥ 60 <;> simp [h]
  · intro c req files h1 h2
    unfold analyze_match deepInsights
    by_cases h : (heuristicScore c req).1 ≥ 60 <;> simp [h, h1, h2]

/-- C9 witness: a high-scoring jeecg candidate whose deep read yields an
empty file set keeps its heuristic score and rationale unchanged. -/
theorem deep_inspection_never_raises_witness :
    analyze_match
        { name := "jeecg-boot-module-demo", url := "https://github.com/jeecgboot/jeecg-boot.git",
          description := "Official JeecgBoot demo module. Contains standard CRUD patterns.",
          stars := 3500, match_score := 0, analysis_reason := "" }
        "jeecg module for demo" (DeepFetch.files []) =
      heuristicScore
        { name := "jeecg-boot-module-demo", url := "https://github.com/jeecgboot/jeecg-boot.git",
          description := "Official JeecgBoot demo module. Contains standard CRUD patterns.",
          stars := 3500, match_score := 0, analysis_reason := "" }
        "jeecg module for demo" :=
  deep_inspection_never_raises.2.2 _ "jeecg module for demo" [] rfl rfl

/-- Fixture: a registry entry of the supported kind with no sub-path. -/
def metaPlain : TemplateMeta :=
  { type_ := some "git", repository := "https://github.com/jeecgboot/jeecg-boot.git",
    branch := some "master", sub_path := none }

/-- Fixture: a registry entry of the supported kind with a sub-path. -/
def metaDemo : TemplateMeta :=
  { type_ := some "git", repository := "https://github.com/jeecgboot/jeecg-boot.git",
    branch := some "master", sub_path := some "jeecg-module-demo" }

/-- Fixture: registry holding the sub-path entry under key jeecg-demo. -/
def regDemo : List (String × TemplateMeta) := [("jeecg-demo", metaDemo)]

/-- Fixture: world where no working copy exists and every git command and
path check succeeds. -/
def fsNoCacheAllOk : GitFS :=
  { cacheExists := false, initOk := true, remoteOk := true, sparseOk := true,
    pullOk := true, fetchOk := true, resetOk := true, subPathOk := true }

/-- Fixture: world where the very first git command of a fresh fetch,
`git init`, fails. -/
def fsInitFail : GitFS :=
  { cacheExists := false, initOk := false, remoteOk := true, sparseOk := true,
    pullOk := true, fetchOk := true, resetOk := true, subPathOk := true }

/-- The attempted-git-commands trace of a resolve is always that of its
fetch-or-update step, whatever the sub-path resolution does afterwards. -/
theorem get_template_path_ops (reg : List (String × TemplateMeta)) (cacheBase key : String)
    (meta : TemplateMeta) (force : Bool) (fs : GitFS) :
    lookupRegistry reg key = some meta → meta.type_ = some "git" →
    (get_template_path reg cacheBase key force fs).2 = (resolveStep meta force fs).2 := by
  intro hreg htype
  unfold get_template_path
  rw [hreg]
  simp only [htype]
  rw [if_neg (by simp)]
  rcases hstep : (resolveStep meta force fs).1 with e | u
  · simp [hstep]
  · rcases hsub : meta.sub_path with _ | sp
    · simp [hstep, hsub]
    · by_cases hsp : sp.isEmpty <;> by_cases hok : fs.subPathOk <;>
        simp [hstep, hsub, hsp, hok]

/-- C4 counterexample: with `git init` failing on a fresh fetch of an
uncached key, `_fetch_git_repo` propagates the error while the partially
created cache directory is left in place — contradicting the claim that
any version-control command failure removes it. -/
theorem fetch_cleanup_counterexample :
    (fetch_git_repo metaPlain fsInitFail).1 = Except.error "Git command failed: init" ∧
    (fetch_git_repo metaPlain fsInitFail).2.2 = true :=
  ⟨rfl, rfl⟩

/-- C4 amended: the partially created directory is removed exactly when
the failing step is the final shallow pull; a pull failure propagates the
error with the directory gone, so a subsequent resolve of the key takes
the fresh-fetch path again; failures of init, remote add or the
sparse-checkout setup propagate with the directory left in place. -/
theorem fetch_cleanup_on_pull_failure :
    (∀ meta fs, (fetch_git_repo meta fs).2.2 = false ↔
      (fs.initOk = true ∧ fs.remoteOk = true ∧
        (hasSubPath meta = true → fs.sparseOk = true) ∧ fs.pullOk = false)) ∧
    (∀ meta fs, fs.initOk = true → fs.remoteOk = true →
      (hasSubPath meta = true → fs.sparseOk = true) → fs.pullOk = false →
      (fetch_git_repo meta fs).1 = Except.error "Git command failed: pull" ∧
        (fetch_git_repo meta fs).2.2 = false) ∧
    (∀ reg cacheBase key meta fs, lookupRegistry reg key = some meta →
      meta.type_ = some "git" → fs.cacheExists = false →
      (get_template_path reg cacheBase key false fs).2 = (fetch_git_repo meta fs).2.1) := by
  refine ⟨?_, ?_, ?_⟩
  · intro meta fs
    obtain ⟨ce, io, ro, so, po, fo, rso, spo⟩ := fs
    cases io <;> cases ro <;> cases so <;> cases po <;>
      cases hs : hasSubPath meta <;> simp [fetch_git_repo, hs]
  · intro meta fs hio hro hso hpo
    obtain ⟨ce, io, ro, so, po, fo, rso, spo⟩ := fs
    subst hio hro hpo
    cases hs : hasSubPath meta
    · constructor <;> simp [fetch_git_repo, hs]
    · have : so = true := hso hs
      subst this
      constructor <;> simp [fetch_git_repo, hs]
  · intro reg cacheBase key meta fs hreg htype hce
    rw [get_template_path_ops reg cacheBase key meta false fs hreg htype]
    simp [resolveStep, hce]

/-- C4 amended-theorem witness: the pull-failure clause instantiated on a
concrete uncached entry, and the not-cached clause on a concrete resolve. -/
theorem fetch_cleanup_on_pull_failure_witness :
    (fetch_git_repo metaPlain
        { cacheExists := false, initOk := true, remoteOk := true, sparseOk := true,
          pullOk := false, fetchOk := true, resetOk := true, subPathOk := true }).1 =
      Except.error "Git command failed: pull" ∧
    (fetch_git_repo metaPlain
        { cacheExists := false, initOk := true, remoteOk := true, sparseOk := true,
          pullOk := false, fetchOk := true, resetOk := true, subPathOk := true }).2.2 = false :=
  fetch_cleanup_on_pull_failure.2.1 metaPlain
    { cacheExists := false, initOk := true, remoteOk := true, sparseOk := true,
      pullOk := false, fetchOk := true, resetOk := true, subPathOk := true }
    rfl rfl (by decide) rfl

/-- C5: for a registry entry of the supported kind with a non-empty
sub-path, once the fetch-or-update step succeeded, the resolve returns
exactly `<workspace>/<sub_path>` when that path exists on disk, and
otherwise raises the error naming the sub-path and the key. -/
theorem subpath_resolution (reg : List (String × TemplateMeta)) (cacheBase key : String)
    (meta : TemplateMeta) (force : Bool) (fs : GitFS) (sp : String) :
    lookupRegistry reg key = some meta →
    meta.type_ = some "git" →
    meta.sub_path = some sp →
    sp.isEmpty = false →
    (resolveStep meta force fs).1 = Except.ok () →
    (get_template_path reg cacheBase key force fs).1 =
      (if fs.subPathOk then Except.ok (cacheBase ++ "/" ++ key ++ "/" ++ sp)
       else Except.error
         ("Sub-path " ++ quoteMark ++ sp ++ quoteMark ++ " not found in repo for " ++ key)) := by
  intro hreg htype hsub hne hstep
  unfold get_template_path
  rw [hreg]
  simp only [htype]
  rw [if_neg (by simp)]
  simp only [hstep, hsub, hne]
  by_cases hok : fs.subPathOk <;> simp [hok]

/-- C5 witness: resolving the concrete sub-path entry in a world where
everything succeeds returns the workspace path extended by the sub-path. -/
theorem subpath_resolution_witness :
    (get_template_path regDemo ".template_cache" "jeecg-demo" false fsNoCacheAllOk).1 =
      (if fsNoCacheAllOk.subPathOk then
        Except.ok (".template_cache" ++ "/" ++ "jeecg-demo" ++ "/" ++ "jeecg-module-demo")
       else Except.error
         ("Sub-path " ++ quoteMark ++ "jeecg-module-demo" ++ quoteMark ++
           " not found in repo for " ++ "jeecg-demo")) :=
  subpath_resolution regDemo ".template_cache" "jeecg-demo" metaDemo false fsNoCacheAllOk
    "jeecg-module-demo" rfl rfl rfl rfl rfl

/-- C6 counterexample: resolving an uncached key with forceRefresh=true
runs the fresh-fetch command sequence — init, remote add, shallow pull —
and never a fetch+reset cycle, contradicting the claim that the cycle
runs regardless of prior cache state. -/
theorem force_refresh_counterexample :
    (get_template_path [("jeecg-demo", metaPlain)] ".template_cache" "jeecg-demo" true
        fsNoCacheAllOk).2 = [GitOp.init, GitOp.remoteAdd, GitOp.pull] ∧
    GitOp.reset ∉
      (get_template_path [("jeecg-demo", metaPlain)] ".template_cache" "jeecg-demo" true
        fsNoCacheAllOk).2 := by
  constructor
  · rfl
  · decide

/-- C6 amended: with a cached working copy present, forceRefresh=true
performs exactly one fetch+reset cycle (the reset attempted only once the
fetch succeeded); with no cached copy it performs the fresh-fetch
sequence of `_fetch_git_repo`, which contains no reset. -/
theorem force_refresh_update_cycle :
    (∀ reg cacheBase key meta fs, lookupRegistry reg key = some meta →
      meta.type_ = some "git" → fs.cacheExists = true → fs.fetchOk = true →
      (get_template_path reg cacheBase key true fs).2 = [GitOp.fetch, GitOp.reset]) ∧
    (∀ reg cacheBase key meta fs, lookupRegistry reg key = some meta →
      meta.type_ = some "git" → fs.cacheExists = true → fs.fetchOk = false →
      (get_template_path reg cacheBase key true fs).2 = [GitOp.fetch]) ∧
    (∀ reg cacheBase key meta fs, lookupRegistry reg key = some meta →
      meta.type_ = some "git" → fs.cacheExists = false →
      (get_template_path reg cacheBase key true fs).2 = (fetch_git_repo meta fs).2.1 ∧
        GitOp.reset ∉ (fetch_git_repo meta fs).2.1) := by
  refine ⟨?_, ?_, ?_⟩
  · intro reg cacheBase key meta fs hreg htype hce hfo
    rw [get_template_path_ops reg cacheBase key meta true fs hreg htype]
    rcases hro : fs.resetOk <;>
      simp [resolveStep, update_git_repo, hce, hfo, hro]
  · intro reg cacheBase key meta fs hreg htype hce hfo
    rw [get_template_path_ops reg cacheBase key meta true fs hreg htype]
    simp [resolveStep, update_git_repo, hce, hfo]
  · intro reg cacheBase key meta fs hreg htype hce
    constructor
    · rw [get_template_path_ops reg cacheBase key meta true fs hreg htype]
      simp [resolveStep, hce]
    · obtain ⟨ce, io, ro, so, po, fo, rso, spo⟩ := fs
      cases io <;> cases ro <;> cases so <;> cases po <;>
        cases hs : hasSubPath meta <;> simp [fetch_git_repo, hs]

/-- C6 amended-theorem witness: the cached clause instantiated on a
concrete cached entry runs exactly one fetch+reset cycle. -/
theorem force_refresh_update_cycle_witness :
    (get_template_path regDemo ".template_cache" "jeecg-demo" true
        { cacheExists := true, initOk := true, remoteOk := true, sparseOk := true,
          pullOk := true, fetchOk := true, resetOk := true, subPathOk := true }).2 =
      [GitOp.fetch, GitOp.reset] :=
  force_refresh_update_cycle.1 regDemo ".template_cache" "jeecg-demo" metaDemo
    { cacheExists := true, initOk := true, remoteOk := true, sparseOk := true,
      pullOk := true, fetchOk := true, resetOk := true, subPathOk := true }
    rfl rfl rfl rfl
